import Mathlib

/-!
Shallow embedding of the `WebProxyServer` core from `src/main.py`
(a forward HTTP/HTTPS proxy with URL blocking, response caching with
conditional revalidation, and an opaque CONNECT byte relay).

Python `str` values are modelled as `List Char` (`Str`), Python `bytes`
as the distinct wrapper `PyBytes` (so that the str/bytes distinction of
the source — `.decode()`, `.encode()`, and the type errors that arise
from mixing them — is representable).  A Python call that raises an
uncaught exception is modelled with `Option`/an explicit error field.
Network reads are supplied by an oracle (`Env`), and the observable
effects of a connection handler run (bytes written to the client socket,
the cache after the run, which I/O paths executed, whether the handler
reached its `close()` call, and the uncaught exception if any) are
collected in `HResult`.
-/

set_option maxRecDepth 40000

/-- Python `str`, modelled as a list of characters. -/
abbrev Str := List Char

/-- Python `bytes`. A separate type from `Str` so that the source's
`decode`/`encode` boundary (and its misuse) is visible in the model. -/
structure PyBytes where
  data : Str
deriving DecidableEq, Repr

/-- `bytes.decode()` (the sources only ever decode ASCII HTTP text). -/
def PyBytes.decode (b : PyBytes) : Str := b.data

/-- `str.encode()`. -/
def Str.encode (s : Str) : PyBytes := ⟨s⟩

/-- The uncaught Python exceptions the embedded code can raise. -/
inductive PyError where
  | indexError      -- list index out of range
  | attributeError  -- e.g. `bytes` object has no attribute `encode`
  | typeError       -- e.g. `strftime()` argument 1 must be str, not bytes
deriving DecidableEq, Repr

/-- The characters Python's no-argument `split()` / `strip()` treat as
whitespace on ASCII data: space, tab, LF, VT, FF, CR. -/
def isPySpace (c : Char) : Bool :=
  c = ' ' || c = '\t' || c = '\n' || c = '\x0b' || c = '\x0c' || c = '\r'

/-- Python `s.split('\r\n')`: split on every occurrence of CRLF, keeping
empty pieces; the result is never the empty list (`''.split('\r\n')`
is `['']`). -/
def splitCRLF : Str → List Str
  | [] => [[]]
  | '\r' :: '\n' :: rest => [] :: splitCRLF rest
  | c :: rest =>
    match splitCRLF rest with
    | [] => [[c]]
    | t :: ts => (c :: t) :: ts

/-- Python `s.split(sep, 1)` for a one-character separator `sep`:
at most one split, at the first occurrence. -/
def splitFirst (sep : Char) : Str → List Str
  | [] => [[]]
  | c :: rest =>
    if c = sep then [[], rest]
    else
      match splitFirst sep rest with
      | [] => [[c]]
      | t :: ts => (c :: t) :: ts

/-- Worker for `pySplit`: `cur` is the (reversed) word being accumulated. -/
def pySplitGo (cur : Str) : Str → List Str
  | [] => if cur.isEmpty then [] else [cur.reverse]
  | c :: rest =>
    if isPySpace c then
      if cur.isEmpty then pySplitGo [] rest
      else cur.reverse :: pySplitGo [] rest
    else pySplitGo (c :: cur) rest

/-- Python's no-argument `split()`: split on runs of whitespace,
discarding empty pieces (so leading/trailing whitespace yields nothing). -/
def pySplit (s : Str) : List Str := pySplitGo [] s

/-- Python `s.strip()`: drop leading and trailing whitespace. -/
def pyStrip (s : Str) : Str :=
  ((s.dropWhile isPySpace).reverse.dropWhile isPySpace).reverse

/-- Python `s.lower()` (on the ASCII header text the proxy handles). -/
def pyLower (s : Str) : Str := s.map Char.toLower

/-- Python `s.startswith(p)`: is `p` a prefix of `s`? -/
def pyStartsWith : Str → Str → Bool
  | _, [] => true
  | [], _ :: _ => false
  | c :: s, d :: p => c = d && pyStartsWith s p

/-- Python `sub in s`: does `sub` occur as a contiguous substring of `s`? -/
def pyContains (sub : Str) : Str → Bool
  | [] => sub.isEmpty
  | c :: rest => pyStartsWith (c :: rest) sub || pyContains sub rest

-- Sanity checks of the Python-semantics helpers on concrete inputs.
example : splitCRLF "a\r\nb\r\n".toList = ["a".toList, "b".toList, []] := by decide
example : splitCRLF [] = [[]] := by decide
example : pySplit " GET  /x \r\n".toList = ["GET".toList, "/x".toList] := by decide
example : pySplit [] = [] := by decide
example : splitFirst ':' "Host: a:b".toList = ["Host".toList, " a:b".toList] := by decide
example : pyStrip "  a b\r\n".toList = "a b".toList := by decide
example : pyLower "Last-Modified: X".toList = "last-modified: x".toList := by decide
example : pyContains "CONNECT".toList "xCONNECTy".toList = true := by decide
example : pyContains "CONNECT".toList "CONNECx".toList = false := by decide

/-!
## HTTP Message Utilities (`src/main.py` lines 242–309)

Each function mirrors one method of `WebProxyServer`.  `Option` return
types model Python methods that can raise: `none` is an uncaught
exception (the doc comment of each function says which one).
-/

/-- `WebProxyServer.get_url` (`src/main.py:242-255`).
`lines = request.split('\r\n')` is never the empty list, so the
`if lines:` guard always succeeds (its `return ''` arm is dead code);
`lines[0].split()[1]` raises `IndexError` — modelled as `none` — when
the first line has fewer than two whitespace-separated tokens. -/
def get_url (request : Str) : Option Str :=
  let lines := splitCRLF request
  match lines with
  | [] => some []   -- dead `return ''` arm: `splitCRLF` never returns `[]`
  | first :: _ =>
    match pySplit first with
    | _ :: t :: _ => some t
    | _ => none     -- IndexError: first line has no second token

/-- `WebProxyServer.get_status_code` (`src/main.py:257-270`).
Same shape as `get_url`, on bytes: `response.split(b'\r\n')` is never
empty (even for `b''`, where it is `[b'']`), so the `return b''` arm is
dead code and a first line with fewer than two tokens — in particular an
empty response — raises `IndexError` (`none`). -/
def get_status_code (response : PyBytes) : Option PyBytes :=
  let lines := splitCRLF response.data
  match lines with
  | [] => some ⟨[]⟩   -- dead `return b''` arm: `splitCRLF` never returns `[]`
  | first :: _ =>
    match pySplit first with
    | _ :: t :: _ => some ⟨t⟩
    | _ => none       -- IndexError: first line has no second token

/-- The scan of `WebProxyServer.get_host`'s `for` loop over the request
lines (`src/main.py:283-293`).  On the first line whose lowercase form
starts with `host:`, take everything after the line's first `:` and strip
it (`host_line`); if that still contains a `:`, return the stripped part
before it, else return it as is.  If no line matches, return `localhost`. -/
def get_host_scan : List Str → Str
  | [] => "localhost".toList
  | line :: rest =>
    if pyStartsWith (pyLower line) "host:".toList then
      let host_line := pyStrip ((splitFirst ':' line).getD 1 [])
      if pyContains [':'] host_line then
        pyStrip ((splitFirst ':' host_line).getD 0 [])
      else
        host_line
    else get_host_scan rest

/-- `WebProxyServer.get_host` (`src/main.py:272-293`): split the request
on CRLF and scan the lines for a `Host:` header; total (never raises). -/
def get_host (request : Str) : Str :=
  get_host_scan (splitCRLF request)

/-- The scan of `WebProxyServer.get_last_modified`'s `for` loop over the
response lines (`src/main.py:305-309`).  On the first line whose lowercase
form starts with `last-modified:`, return the stripped value after the
line's first `:`.  If no line matches, the source evaluates
`time.strftime(b'%a, %d %b %Y %H:%M:%S GMT', time.gmtime())`, which
raises `TypeError` in Python 3 (`strftime()` argument 1 must be str, not
bytes) — modelled as `none`. -/
def get_last_modified_scan : List Str → Option PyBytes
  | [] => none   -- TypeError: bytes format string passed to time.strftime
  | line :: rest =>
    if pyStartsWith (pyLower line) "last-modified:".toList then
      some ⟨pyStrip ((splitFirst ':' line).getD 1 [])⟩
    else get_last_modified_scan rest

/-- `WebProxyServer.get_last_modified` (`src/main.py:295-309`). -/
def get_last_modified (response : PyBytes) : Option PyBytes :=
  get_last_modified_scan (splitCRLF response.data)

-- Sanity checks of the utilities on the spec's own examples.
example : get_url "GET /index.html HTTP/1.1\r\nHost: x\r\n\r\n".toList
    = some "/index.html".toList := by decide
example : get_url "GET\r\n\r\n".toList = none := by decide
example : get_status_code ⟨"HTTP/1.1 304 Not Modified\r\nServer: x\r\n\r\n".toList⟩
    = some ⟨"304".toList⟩ := by decide
example : get_status_code ⟨[]⟩ = none := by decide
example : get_host "GET http://e.com/ HTTP/1.1\r\nHost: example.com:8080\r\n\r\n".toList
    = "example.com".toList := by decide
example : get_host "GET /x HTTP/1.1\r\n\r\n".toList = "localhost".toList := by decide
example : get_host "GET /x HTTP/1.1\r\nhOsT: a.b\r\n\r\n".toList = "a.b".toList := by decide
example : get_last_modified ⟨"HTTP/1.1 200 OK\r\nLAST-MODIFIED:  Mon, 01 Jan 2024 00:00:00 GMT \r\n\r\n".toList⟩
    = some ⟨"Mon, 01 Jan 2024 00:00:00 GMT".toList⟩ := by decide
example : get_last_modified ⟨"HTTP/1.1 200 OK\r\n\r\nhello".toList⟩ = none := by decide

/-!
## Connection handler (`WebProxyServer.handle_request`, `src/main.py:64-151`)

The handler's network reads are supplied by an oracle `Env`:
`probe` is the single-buffer read of the conditional-GET probe
(`forward_to_server(..., conditional_get=True)`, `src/main.py:106`),
`fetch` the full read of an ordinary fetch (`forward_to_server(request)`),
and `elapsed` the measured wall-clock duration `end_time - start_time`
(a float in the source, modelled as an integer number of time units —
it is stored and logged but never branched on).
-/

/-- One cached value: the list `[response, last_modified, execution_time]`
stored in `self.cache[target_url]` (`src/main.py:130,147`). -/
structure CacheEntry where
  rawResponse : PyBytes
  lastModified : PyBytes
  execTime : Int
deriving DecidableEq, Repr

/-- Oracle for the handler's network reads and clock. -/
structure Env where
  probe : PyBytes
  fetch : PyBytes
  elapsed : Int
deriving DecidableEq, Repr

/-- Observable outcome of one `handle_request` run.
`sends` lists the byte strings written to the client socket, in order
(for the tunnel path, only the `200 Connection Established` line —
the relayed traffic is modelled separately by `relay_https`);
`cache` is the shared cache after the run; `probeRequest` is the
conditional-GET request text if a probe was sent; `fetched` records
whether a full origin fetch ran; `tunneled` whether the CONNECT path
(`handle_https`) was taken; `closed` whether the handler executed a
`client_socket.close()`; `err` is the uncaught exception, if any. -/
structure HResult where
  sends : List PyBytes
  cache : Str → Option CacheEntry
  probeRequest : Option Str
  fetched : Bool
  tunneled : Bool
  closed : Bool
  err : Option PyError

/-- The `HTTP/1.1 200 Connection Established` line (`src/main.py:91,168`). -/
def connEstablished : PyBytes :=
  ⟨"HTTP/1.1 200 Connection Established\r\n\r\n".toList⟩

/-- The fixed blocked response (`src/main.py:94-96`): status line,
`Content-Type` header, and HTML body, concatenated before sending. -/
def blockedResponse : PyBytes :=
  ⟨("HTTP/1.1 403 Forbidden\r\n" ++
    "Content-Type: text/html\r\n\r\n" ++
    "<html><head><title>403 Forbidden</title></head><body><h1>403 Forbidden" ++
    "</h1><p>This page has been blocked by the proxy server.</p></body></html>").toList⟩

/-- The literal `'CONNECT'` tested by `'CONNECT' in request`. -/
def connectTok : Str := "CONNECT".toList

/-- The literal `b'304'` compared against the probe's status code. -/
def b304 : PyBytes := ⟨"304".toList⟩

/-- `WebProxyServer.handle_request` (`src/main.py:64-151`), one run on a
received request.  Branches follow the source in order: empty request →
close; `get_url` raising `IndexError` aborts the handler (no `try` block
anywhere, so nothing is sent and the final `close()` is never reached);
blocked target → optional `200` line plus the fixed `403` bytes; cached
target → conditional probe, serving the cached bytes on `304` and
otherwise crashing with `AttributeError` at
`client_socket.sendall(response.encode())` (`src/main.py:122`, `response`
is `bytes`); uncached CONNECT-containing request → `handle_https`;
otherwise full fetch, send, and cache insert (which is skipped with an
uncaught `TypeError` when `get_last_modified` hits its bytes-`strftime`
fallback). -/
def handle_request (env : Env) (blocked_urls : Str → Bool)
    (cache : Str → Option CacheEntry) (requestBytes : PyBytes) : HResult :=
  let request := requestBytes.decode
  if request.isEmpty then
    { sends := [], cache := cache, probeRequest := none, fetched := false,
      tunneled := false, closed := true, err := none }
  else
    match get_url request with
    | none =>
      { sends := [], cache := cache, probeRequest := none, fetched := false,
        tunneled := false, closed := false, err := some .indexError }
    | some target_url =>
      let target_host := get_host request
      if blocked_urls target_url then
        let pre := if pyContains connectTok request then [connEstablished] else []
        { sends := pre ++ [blockedResponse], cache := cache, probeRequest := none,
          fetched := false, tunneled := false, closed := true, err := none }
      else
        match cache target_url with
        | some entry =>
          let conditional_request :=
            "GET ".toList ++ target_url ++ " HTTP/1.1\r\n".toList ++
            "Host: ".toList ++ target_host ++ "\r\n".toList ++
            "If-Modified-Since: ".toList ++ entry.lastModified.decode ++
            "\r\n\r\n".toList
          let conditional_response := env.probe
          match get_status_code conditional_response with
          | none =>
            -- get_status_code raised IndexError on the probe's bytes
            { sends := [], cache := cache,
              probeRequest := some conditional_request, fetched := false,
              tunneled := false, closed := false, err := some .indexError }
          | some code =>
            if code = b304 then
              { sends := [entry.rawResponse], cache := cache,
                probeRequest := some conditional_request, fetched := false,
                tunneled := false, closed := true, err := none }
            else
              -- `response = self.forward_to_server(request)` runs the full
              -- fetch; then `client_socket.sendall(response.encode())`
              -- raises AttributeError because `response` is already bytes
              { sends := [], cache := cache,
                probeRequest := some conditional_request, fetched := true,
                tunneled := false, closed := false, err := some .attributeError }
        | none =>
          if pyContains connectTok request then
            -- handle_https: connect to (get_host request, 443), send the
            -- 200 line, then relay_https; the cache is never referenced
            { sends := [connEstablished], cache := cache, probeRequest := none,
              fetched := false, tunneled := true, closed := true, err := none }
          else
            let response := env.fetch
            match get_last_modified response with
            | none =>
              -- sendall(response) has happened; get_last_modified then
              -- raises TypeError before the cache store at line 147
              { sends := [response], cache := cache, probeRequest := none,
                fetched := true, tunneled := false, closed := false,
                err := some .typeError }
            | some last_modified =>
              { sends := [response],
                cache := fun t => if t = target_url then
                    some ⟨response, last_modified, env.elapsed⟩ else cache t,
                probeRequest := none, fetched := true, tunneled := false,
                closed := true, err := none }

/-!
## HTTPS tunnel relay (`WebProxyServer.relay_https`, `src/main.py:173-194`)

The relay loop is driven by `select`: on each readiness notification it
calls `recv` on a readable socket and either forwards the bytes to the
other socket or, on an empty read, closes both sockets and returns.  We
model a (finite observation of a) run by the sequence of `recv` results
in the order the loop performs them; the relay consumes them one by one.
An exhausted event list with no empty read models a relay still blocked
in `select` (no close has happened yet).
-/

/-- Which socket a `recv` result came from. -/
inductive Side where
  | client
  | server
deriving DecidableEq, Repr

/-- One `recv` result inside the relay loop: the socket it was read from
and the bytes it returned (empty bytes = that peer closed). -/
structure ReadEv where
  side : Side
  data : PyBytes
deriving DecidableEq, Repr

/-- Observable outcome of a relay run: the byte strings forwarded to the
server socket and to the client socket (in order), whether both sockets
were closed, and how many `recv` calls were consumed. -/
structure RelayResult where
  toServer : List PyBytes
  toClient : List PyBytes
  closedBoth : Bool
  reads : Nat
deriving DecidableEq, Repr

/-- `WebProxyServer.relay_https` (`src/main.py:181-194`) on a sequence of
`recv` results: a non-empty read from one side is sent verbatim to the
other side and the loop continues; the first empty read closes both
sockets and returns, consuming nothing further. -/
def relay_https : List ReadEv → RelayResult
  | [] => { toServer := [], toClient := [], closedBoth := false, reads := 0 }
  | ev :: rest =>
    if ev.data.data.isEmpty then
      { toServer := [], toClient := [], closedBoth := true, reads := 1 }
    else
      let r := relay_https rest
      match ev.side with
      | .client => { r with toServer := ev.data :: r.toServer, reads := r.reads + 1 }
      | .server => { r with toClient := ev.data :: r.toClient, reads := r.reads + 1 }

/-- The `recv` results of a given side, in order. -/
def sideData (sd : Side) (evs : List ReadEv) : List PyBytes :=
  (evs.filter (fun e => e.side = sd)).map (fun e => e.data)

-- Sanity checks of the handler and relay on concrete runs.
/-- An arbitrary network oracle used in concrete runs. -/
def env0 : Env := ⟨⟨"HTTP/1.1 200 OK\r\n\r\nP".toList⟩, ⟨"HTTP/1.1 200 OK\r\n\r\nQ".toList⟩, 7⟩

example :
    (handle_request env0 (fun t => t = "/b".toList) (fun _ => none)
      ⟨"GET /b HTTP/1.1\r\nHost: h\r\n\r\n".toList⟩).sends
      = [blockedResponse] := by decide

example :
    (handle_request env0 (fun t => t = "/b".toList) (fun _ => none)
      ⟨"CONNECT /b HTTP/1.1\r\nHost: h\r\n\r\n".toList⟩).sends
      = [connEstablished, blockedResponse] := by decide

example :
    (handle_request env0 (fun _ => false) (fun _ => none)
      ⟨"CONNECT h:443 HTTP/1.1\r\nHost: h:443\r\n\r\n".toList⟩).tunneled = true := by
  decide

example :
    relay_https [⟨.client, ⟨"ab".toList⟩⟩, ⟨.server, ⟨"c".toList⟩⟩,
        ⟨.client, ⟨[]⟩⟩, ⟨.server, ⟨"zz".toList⟩⟩]
      = { toServer := [⟨"ab".toList⟩], toClient := [⟨"c".toList⟩],
          closedBoth := true, reads := 3 } := by decide

/-!
## Helper lemmas
-/

/-- Python's `split` never returns an empty list, so the `if lines:`
guards in `get_url` and `get_status_code` always take the first arm. -/
theorem splitCRLF_ne_nil (s : Str) : splitCRLF s ≠ [] := by
  rw [splitCRLF.eq_def]
  split
  · simp
  · simp
  · split <;> simp

theorem exists_cons_splitCRLF (s : Str) : ∃ a l, splitCRLF s = a :: l := by
  cases h : splitCRLF s with
  | nil => exact absurd h (splitCRLF_ne_nil s)
  | cons a l => exact ⟨a, l, rfl⟩

theorem get_url_nil : get_url ([] : Str) = none := by decide

/-- `get_url` raises (returns `none`) exactly when the first CRLF line of
the request has fewer than two whitespace-separated tokens. -/
theorem get_url_eq_none_iff (request : Str) :
    get_url request = none ↔
      (pySplit ((splitCRLF request).headD [])).length < 2 := by
  obtain ⟨a, l, h⟩ := exists_cons_splitCRLF request
  simp only [get_url, h, List.headD_cons]
  cases htok : pySplit a with
  | nil => simp
  | cons t ts =>
    cases ts with
    | nil => simp
    | cons t2 ts2 => simp

/-- A successful `get_url` forces a nonempty request text. -/
theorem decode_ne_nil_of_get_url (requestBytes : PyBytes) (target : Str)
    (hurl : get_url requestBytes.decode = some target) :
    requestBytes.decode.isEmpty = false := by
  cases h : requestBytes.decode with
  | nil => rw [h, get_url_nil] at hurl; exact absurd hurl (by simp)
  | cons c cs => simp

/-- A list starts with itself followed by anything. -/
theorem pyStartsWith_append (l t : Str) : pyStartsWith (l ++ t) l = true := by
  induction l with
  | nil => cases t <;> rfl
  | cons c l ih => simp [pyStartsWith, ih]

/-- Python `split(sep, 1)` around the first occurrence of the separator. -/
theorem splitFirst_append (c : Char) (l1 l2 : Str) (h : c ∉ l1) :
    splitFirst c (l1 ++ c :: l2) = [l1, l2] := by
  induction l1 with
  | nil => simp [splitFirst]
  | cons a l1 ih =>
    have ha : ¬a = c := fun e => h (by simp [e])
    have h1 : c ∉ l1 := fun e => h (by simp [e])
    simp [splitFirst, ha, ih h1]

/-- A one-character needle occurring in the haystack is found. -/
theorem pyContains_append_singleton (c : Char) (l1 l2 : Str) :
    pyContains [c] (l1 ++ c :: l2) = true := by
  induction l1 with
  | nil => simp [pyContains, pyStartsWith]
  | cons a l1 ih => simp [pyContains, ih]

/-- A string whose lowercase form is `host` contains no colon. -/
theorem colon_not_mem_of_lower_host (hd : Str)
    (hhd : pyLower hd = "host".toList) : ':' ∉ hd := by
  intro hmem
  have hmap : Char.toLower ':' ∈ pyLower hd := List.mem_map_of_mem _ hmem
  rw [hhd] at hmap
  have : Char.toLower ':' = ':' := by decide
  rw [this] at hmap
  exact absurd hmap (by decide)

/-- Scanning lines none of which lowercases to a `host:` line falls
through to the `localhost` fallback (`src/main.py:293`). -/
theorem get_host_scan_no_match (lines : List Str)
    (h : ∀ l ∈ lines, pyStartsWith (pyLower l) "host:".toList = false) :
    get_host_scan lines = "localhost".toList := by
  induction lines with
  | nil => rfl
  | cons l rest ih =>
    have h1 : pyStartsWith (pyLower l) ['h', 'o', 's', 't', ':'] = false :=
      h l (by simp)
    simp [get_host_scan, h1, ih (fun x hx => h x (by simp [hx]))]

/-- The scan skips any leading lines that do not match. -/
theorem get_host_scan_append (pre ls : List Str)
    (h : ∀ l ∈ pre, pyStartsWith (pyLower l) "host:".toList = false) :
    get_host_scan (pre ++ ls) = get_host_scan ls := by
  induction pre with
  | nil => rfl
  | cons l rest ih =>
    have h1 : pyStartsWith (pyLower l) ['h', 'o', 's', 't', ':'] = false :=
      h l (by simp)
    simp [get_host_scan, h1, ih (fun x hx => h x (by simp [hx]))]

/-- The scan on a matching `Host:` line: the part after the line's first
colon is stripped and, containing a colon, is split again at that colon
and the piece before it returned (`src/main.py:285-290`). -/
theorem get_host_scan_match (hd v h p : Str) (rest : List Str)
    (hhd : pyLower hd = "host".toList)
    (hv : pyStrip v = h ++ ':' :: p)
    (hcol : ':' ∉ h)
    (hsh : pyStrip h = h) :
    get_host_scan ((hd ++ ':' :: v) :: rest) = h := by
  have hlow : pyLower (hd ++ ':' :: v) = "host:".toList ++ pyLower v := by
    have hc : Char.toLower ':' = ':' := by decide
    simp [pyLower] at hhd ⊢
    simp [hhd, hc]
  have hstart : pyStartsWith (pyLower (hd ++ ':' :: v)) ['h', 'o', 's', 't', ':'] = true := by
    rw [show (['h', 'o', 's', 't', ':'] : Str) = "host:".toList from rfl, hlow]
    exact pyStartsWith_append _ _
  have hcolhd := colon_not_mem_of_lower_host hd hhd
  simp [get_host_scan, hstart, splitFirst_append ':' hd v hcolhd, hv,
    pyContains_append_singleton, splitFirst_append ':' h p hcol, hsh]

/-- The scan of a line list for a `last-modified:` header with no match
reaches the `time.strftime` fallback, i.e. the `TypeError`. -/
theorem get_last_modified_scan_none (lines : List Str)
    (h : ∀ l ∈ lines, pyStartsWith (pyLower l) "last-modified:".toList = false) :
    get_last_modified_scan lines = none := by
  induction lines with
  | nil => rfl
  | cons l rest ih =>
    have h1 : pyStartsWith (pyLower l)
        ['l', 'a', 's', 't', '-', 'm', 'o', 'd', 'i', 'f', 'i', 'e', 'd', ':'] = false :=
      h l (by simp)
    simp [get_last_modified_scan, h1, ih (fun x hx => h x (by simp [hx]))]

/-- Claim C8: in the tunnel relay loop every non-empty buffer read from
one socket is forwarded verbatim and in order to the other socket
(`toServer` is exactly the sequence of client-side reads before the
first empty read, and `toClient` the server-side ones), and the first
empty read terminates the relay, closes both the client and the origin
socket, and no further reads of either socket occur (exactly
`pre.length + 1` reads are consumed, whatever follows). -/
theorem relay_https_first_empty (pre post : List ReadEv) (ev : ReadEv)
    (hpre : ∀ e ∈ pre, e.data.data ≠ [])
    (hev : ev.data.data = []) :
    relay_https (pre ++ ev :: post) =
      { toServer := sideData .client pre, toClient := sideData .server pre,
        closedBoth := true, reads := pre.length + 1 } := by
  induction pre with
  | nil => simp [relay_https, hev, sideData]
  | cons e pre ih =>
    have hne : e.data.data.isEmpty = false := by
      cases hdd : e.data.data with
      | nil => exact absurd hdd (hpre e (by simp))
      | cons _ _ => simp
    have ih' := ih (fun x hx => hpre x (by simp [hx]))
    cases hs : e.side <;>
      simp [relay_https, hne, ih', sideData, List.filter_cons, hs]

/-!
## Branch lemmas for `handle_request`

One lemma per arm of the handler's classification, each giving the full
`HResult` of that arm.  The claim theorems below are corollaries.
-/

/-- Blocked-target arm (`src/main.py:88-98`). -/
theorem handle_request_blocked (env : Env) (blocked_urls : Str → Bool)
    (cache : Str → Option CacheEntry) (requestBytes : PyBytes) (target : Str)
    (hurl : get_url requestBytes.decode = some target)
    (hb : blocked_urls target = true) :
    handle_request env blocked_urls cache requestBytes =
      { sends := (if pyContains connectTok requestBytes.decode then [connEstablished]
                  else []) ++ [blockedResponse],
        cache := cache, probeRequest := none, fetched := false,
        tunneled := false, closed := true, err := none } := by
  have hne := decode_ne_nil_of_get_url requestBytes target hurl
  simp [handle_request, hne, hurl, hb]

/-- Parse-failure arm: `get_url` raises `IndexError` and, with no `try`
anywhere in `handle_request`, the exception aborts the handler before
any send and before the final `close()` (`src/main.py:84,151`). -/
theorem handle_request_parse_fail (env : Env) (blocked_urls : Str → Bool)
    (cache : Str → Option CacheEntry) (requestBytes : PyBytes)
    (hne : requestBytes.decode.isEmpty = false)
    (hurl : get_url requestBytes.decode = none) :
    handle_request env blocked_urls cache requestBytes =
      { sends := [], cache := cache, probeRequest := none, fetched := false,
        tunneled := false, closed := false, err := some .indexError } := by
  simp [handle_request, hne, hurl]

/-- Cached-target arm, probe status `304` (`src/main.py:109-118`):
the stored bytes are sent and the cache is left alone. -/
theorem handle_request_cached_304 (env : Env) (blocked_urls : Str → Bool)
    (cache : Str → Option CacheEntry) (requestBytes : PyBytes) (target : Str)
    (entry : CacheEntry)
    (hurl : get_url requestBytes.decode = some target)
    (hb : blocked_urls target = false)
    (hc : cache target = some entry)
    (hst : get_status_code env.probe = some b304) :
    handle_request env blocked_urls cache requestBytes =
      { sends := [entry.rawResponse], cache := cache,
        probeRequest := some
          ("GET ".toList ++ target ++ " HTTP/1.1\r\n".toList ++
           "Host: ".toList ++ get_host requestBytes.decode ++ "\r\n".toList ++
           "If-Modified-Since: ".toList ++ entry.lastModified.decode ++
           "\r\n\r\n".toList),
        fetched := false, tunneled := false, closed := true, err := none } := by
  have hne := decode_ne_nil_of_get_url requestBytes target hurl
  simp [handle_request, hne, hurl, hb, hc, hst]

/-- Cached-target arm, probe status present but not `304`
(`src/main.py:119-130`): the full re-fetch runs, then
`client_socket.sendall(response.encode())` raises `AttributeError`
(`response` is `bytes`), so nothing is sent and the cache keeps the old
entry. -/
theorem handle_request_cached_fresh (env : Env) (blocked_urls : Str → Bool)
    (cache : Str → Option CacheEntry) (requestBytes : PyBytes) (target : Str)
    (entry : CacheEntry) (code : PyBytes)
    (hurl : get_url requestBytes.decode = some target)
    (hb : blocked_urls target = false)
    (hc : cache target = some entry)
    (hst : get_status_code env.probe = some code)
    (hcode : code ≠ b304) :
    handle_request env blocked_urls cache requestBytes =
      { sends := [], cache := cache,
        probeRequest := some
          ("GET ".toList ++ target ++ " HTTP/1.1\r\n".toList ++
           "Host: ".toList ++ get_host requestBytes.decode ++ "\r\n".toList ++
           "If-Modified-Since: ".toList ++ entry.lastModified.decode ++
           "\r\n\r\n".toList),
        fetched := true, tunneled := false, closed := false,
        err := some .attributeError } := by
  have hne := decode_ne_nil_of_get_url requestBytes target hurl
  simp [handle_request, hne, hurl, hb, hc, hst, hcode]

/-- Cached-target arm, `get_status_code` raising on the probe bytes
(e.g. an empty single read): the handler aborts with `IndexError`. -/
theorem handle_request_cached_badprobe (env : Env) (blocked_urls : Str → Bool)
    (cache : Str → Option CacheEntry) (requestBytes : PyBytes) (target : Str)
    (entry : CacheEntry)
    (hurl : get_url requestBytes.decode = some target)
    (hb : blocked_urls target = false)
    (hc : cache target = some entry)
    (hst : get_status_code env.probe = none) :
    handle_request env blocked_urls cache requestBytes =
      { sends := [], cache := cache,
        probeRequest := some
          ("GET ".toList ++ target ++ " HTTP/1.1\r\n".toList ++
           "Host: ".toList ++ get_host requestBytes.decode ++ "\r\n".toList ++
           "If-Modified-Since: ".toList ++ entry.lastModified.decode ++
           "\r\n\r\n".toList),
        fetched := false, tunneled := false, closed := false,
        err := some .indexError } := by
  have hne := decode_ne_nil_of_get_url requestBytes target hurl
  simp [handle_request, hne, hurl, hb, hc, hst]

/-- Uncached CONNECT arm (`src/main.py:133-135`, `handle_https`):
tunnel, no cache access, no HTTP fetch. -/
theorem handle_request_tunnel (env : Env) (blocked_urls : Str → Bool)
    (cache : Str → Option CacheEntry) (requestBytes : PyBytes) (target : Str)
    (hurl : get_url requestBytes.decode = some target)
    (hb : blocked_urls target = false)
    (hc : cache target = none)
    (hconn : pyContains connectTok requestBytes.decode = true) :
    handle_request env blocked_urls cache requestBytes =
      { sends := [connEstablished], cache := cache, probeRequest := none,
        fetched := false, tunneled := true, closed := true, err := none } := by
  have hne := decode_ne_nil_of_get_url requestBytes target hurl
  simp [handle_request, hne, hurl, hb, hc, hconn]

/-- Uncached ordinary-fetch arm with a `Last-Modified` header in the
origin response (`src/main.py:136-147`): send the bytes and overwrite the
cache entry for the target. -/
theorem handle_request_fetch (env : Env) (blocked_urls : Str → Bool)
    (cache : Str → Option CacheEntry) (requestBytes : PyBytes) (target : Str)
    (lm : PyBytes)
    (hurl : get_url requestBytes.decode = some target)
    (hb : blocked_urls target = false)
    (hc : cache target = none)
    (hconn : pyContains connectTok requestBytes.decode = false)
    (hlm : get_last_modified env.fetch = some lm) :
    handle_request env blocked_urls cache requestBytes =
      { sends := [env.fetch],
        cache := fun t => if t = target then
            some ⟨env.fetch, lm, env.elapsed⟩ else cache t,
        probeRequest := none, fetched := true, tunneled := false,
        closed := true, err := none } := by
  have hne := decode_ne_nil_of_get_url requestBytes target hurl
  simp [handle_request, hne, hurl, hb, hc, hconn, hlm]

/-- Uncached ordinary-fetch arm with no `Last-Modified` header: the
response is sent, then `get_last_modified` raises `TypeError` (bytes
format string passed to `time.strftime`, `src/main.py:309`) before the
cache store at line 147 runs. -/
theorem handle_request_fetch_nolm (env : Env) (blocked_urls : Str → Bool)
    (cache : Str → Option CacheEntry) (requestBytes : PyBytes) (target : Str)
    (hurl : get_url requestBytes.decode = some target)
    (hb : blocked_urls target = false)
    (hc : cache target = none)
    (hconn : pyContains connectTok requestBytes.decode = false)
    (hlm : get_last_modified env.fetch = none) :
    handle_request env blocked_urls cache requestBytes =
      { sends := [env.fetch], cache := cache, probeRequest := none,
        fetched := true, tunneled := false, closed := false,
        err := some .typeError } := by
  have hne := decode_ne_nil_of_get_url requestBytes target hurl
  simp [handle_request, hne, hurl, hb, hc, hconn, hlm]

/-!
## Concrete fixtures for witnesses and counterexamples
-/

/-- A cache entry as stored by a previous successful fetch. -/
def entry0 : CacheEntry :=
  ⟨⟨"HTTP/1.1 200 OK\r\nLast-Modified: Mon, 01 Jan 2024 00:00:00 GMT\r\n\r\nold".toList⟩,
   ⟨"Mon, 01 Jan 2024 00:00:00 GMT".toList⟩, 5⟩

/-- A cache holding `entry0` under the target `http://e.com/`. -/
def cache0 : Str → Option CacheEntry :=
  fun t => if t = "http://e.com/".toList then some entry0 else none

/-- An ordinary proxy GET request for `http://e.com/`. -/
def req0 : PyBytes := ⟨"GET http://e.com/ HTTP/1.1\r\nHost: e.com\r\n\r\n".toList⟩

/-- A network oracle whose conditional probe answers `304 Not Modified`. -/
def env304 : Env :=
  ⟨⟨"HTTP/1.1 304 Not Modified\r\n\r\n".toList⟩, ⟨"HTTP/1.1 200 OK\r\n\r\nQ".toList⟩, 2⟩

/-- A network oracle whose full fetch carries a `Last-Modified` header. -/
def envLM : Env :=
  ⟨⟨"HTTP/1.1 200 OK\r\n\r\nP".toList⟩,
   ⟨"HTTP/1.1 200 OK\r\nLast-Modified: Tue, 02 Jan 2024 00:00:00 GMT\r\n\r\nnew".toList⟩, 9⟩

/-!
## Claim theorems
-/

/-- Claim C1 (amended): for every blocked target the handler sends the
fixed 403 bytes, preceded by the `HTTP/1.1 200 Connection Established`
line exactly when the substring `CONNECT` occurs anywhere in the raw
request text (which includes every request whose method is `CONNECT`);
no origin fetch, no conditional probe and no tunnel happens, the cache
is untouched, and all of this holds regardless of cache state. -/
theorem blocked_request_response_spec (env : Env) (blocked_urls : Str → Bool)
    (cache : Str → Option CacheEntry) (requestBytes : PyBytes) (target : Str)
    (hurl : get_url requestBytes.decode = some target)
    (hb : blocked_urls target = true) :
    (handle_request env blocked_urls cache requestBytes).sends =
      (if pyContains connectTok requestBytes.decode then [connEstablished] else [])
        ++ [blockedResponse] ∧
    (handle_request env blocked_urls cache requestBytes).fetched = false ∧
    (handle_request env blocked_urls cache requestBytes).tunneled = false ∧
    (handle_request env blocked_urls cache requestBytes).probeRequest = none ∧
    (handle_request env blocked_urls cache requestBytes).cache = cache ∧
    (handle_request env blocked_urls cache requestBytes).closed = true := by
  rw [handle_request_blocked env blocked_urls cache requestBytes target hurl hb]
  exact ⟨rfl, rfl, rfl, rfl, rfl, rfl⟩

/-- Claim C1 witness: a blocked CONNECT request receives the 200 line
followed by the fixed 403 bytes and triggers no fetch. -/
theorem blocked_request_response_spec_witness :
    (handle_request env0 (fun t => t = "/w1".toList) (fun _ => none)
        ⟨"CONNECT /w1 HTTP/1.1\r\nHost: w\r\n\r\n".toList⟩).sends
      = [connEstablished, blockedResponse] ∧
    (handle_request env0 (fun t => t = "/w1".toList) (fun _ => none)
        ⟨"CONNECT /w1 HTTP/1.1\r\nHost: w\r\n\r\n".toList⟩).fetched = false := by
  have h := blocked_request_response_spec env0 (fun t => t = "/w1".toList)
    (fun _ => none) ⟨"CONNECT /w1 HTTP/1.1\r\nHost: w\r\n\r\n".toList⟩
    "/w1".toList (by decide) (by decide)
  exact ⟨h.1.trans (by decide), h.2.1⟩

/-- Claim C1 counterexample: a blocked request whose method token is
`GET` but whose headers contain the substring `CONNECT` is sent the 200
Connection Established line before the 403 body, so the bytes sent to
the client are not exactly the fixed blocked response bytes. -/
theorem blocked_get_with_connect_substring_extra_line :
    (pySplit ((splitCRLF
        "GET /blocked.html HTTP/1.1\r\nX-Note: CONNECT\r\n\r\n".toList).headD [])).headD []
      = "GET".toList ∧
    ((handle_request env0 (fun t => t = "/blocked.html".toList) (fun _ => none)
        ⟨"GET /blocked.html HTTP/1.1\r\nX-Note: CONNECT\r\n\r\n".toList⟩).sends.map
          PyBytes.data).flatten ≠ blockedResponse.data := by
  decide

/-- Claim C2: for a cached, unblocked target the revalidation outcome is
`NotModified` — the stored bytes are served with no re-fetch — exactly
when the conditional probe's status code is `b'304'`; in that case the
bytes sent to the client are byte-for-byte the stored `rawResponse` and
the cache entry is left unchanged. -/
theorem revalidate_notmodified_serves_cached (env : Env)
    (blocked_urls : Str → Bool) (cache : Str → Option CacheEntry)
    (requestBytes : PyBytes) (target : Str) (entry : CacheEntry)
    (hurl : get_url requestBytes.decode = some target)
    (hb : blocked_urls target = false)
    (hc : cache target = some entry) :
    ((handle_request env blocked_urls cache requestBytes).sends
        = [entry.rawResponse] ∧
      (handle_request env blocked_urls cache requestBytes).fetched = false
        ↔ get_status_code env.probe = some b304) ∧
    (get_status_code env.probe = some b304 →
      (handle_request env blocked_urls cache requestBytes).cache = cache ∧
      (handle_request env blocked_urls cache requestBytes).err = none ∧
      (handle_request env blocked_urls cache requestBytes).closed = true) := by
  cases hst : get_status_code env.probe with
  | none =>
    rw [handle_request_cached_badprobe env blocked_urls cache requestBytes
      target entry hurl hb hc hst]
    simp
  | some code =>
    by_cases hcode : code = b304
    · subst hcode
      rw [handle_request_cached_304 env blocked_urls cache requestBytes
        target entry hurl hb hc hst]
      simp
    · rw [handle_request_cached_fresh env blocked_urls cache requestBytes
        target entry code hurl hb hc hst hcode]
      simp [hcode]

/-- Claim C2 witness: with a `304` probe answer the cached bytes are
served for the cached target of `cache0`. -/
theorem revalidate_notmodified_serves_cached_witness :
    get_status_code env304.probe = some b304 ∧
    (handle_request env304 (fun _ => false) cache0 req0).sends
      = [entry0.rawResponse] := by
  have h := revalidate_notmodified_serves_cached env304 (fun _ => false) cache0
    req0 "http://e.com/".toList entry0 (by decide) (by decide) (by decide)
  exact ⟨by decide, (h.1.mpr (by decide)).1⟩

/-- Claim C3 (code bug): after a `Fresh` probe outcome the code performs
the full re-fetch but then raises `AttributeError` at
`client_socket.sendall(response.encode())` (`src/main.py:122` — `response`
is already `bytes`), so nothing is sent to the client and the cache keeps
the old entry; in the uncached path a response without a `Last-Modified`
header is sent but the cache insert at line 147 is skipped because
`get_last_modified` raises `TypeError` first.  The claimed behaviour does
hold for an uncached fetch whose response carries `Last-Modified`: the
entry is then wholesale replaced with the newly fetched bytes. -/
theorem fresh_refetch_and_uncached_put_crash :
    ((handle_request env0 (fun _ => false) cache0 req0).fetched = true ∧
      (handle_request env0 (fun _ => false) cache0 req0).err
        = some .attributeError ∧
      (handle_request env0 (fun _ => false) cache0 req0).sends = [] ∧
      (handle_request env0 (fun _ => false) cache0 req0).cache
        "http://e.com/".toList = some entry0) ∧
    ((handle_request env0 (fun _ => false) (fun _ => none) req0).sends
        = [env0.fetch] ∧
      (handle_request env0 (fun _ => false) (fun _ => none) req0).err
        = some .typeError ∧
      (handle_request env0 (fun _ => false) (fun _ => none) req0).cache
        "http://e.com/".toList = none) ∧
    ((handle_request envLM (fun _ => false) (fun _ => none) req0).cache
        "http://e.com/".toList
        = some ⟨envLM.fetch, ⟨"Tue, 02 Jan 2024 00:00:00 GMT".toList⟩,
            envLM.elapsed⟩ ∧
      (handle_request envLM (fun _ => false) (fun _ => none) req0).sends
        = [envLM.fetch] ∧
      (handle_request envLM (fun _ => false) (fun _ => none) req0).err = none) := by
  decide

/-- Claim C4 (amended): a request text whose first CRLF line has fewer
than two whitespace-separated tokens makes `get_url` raise (`IndexError`,
the source's `ParseError`), and the handler — which has no exception
containment — then aborts: no bytes are sent, no fetch, probe or tunnel
happens, the shared cache is untouched, and the handler's own
`client_socket.close()` at `src/main.py:151` is never executed (the
socket is closed only by interpreter cleanup when the per-connection
thread dies; the listener and other connections run in other threads and
are unaffected). -/
theorem parse_failure_aborts_handler (env : Env) (blocked_urls : Str → Bool)
    (cache : Str → Option CacheEntry) (requestBytes : PyBytes)
    (hne : requestBytes.decode ≠ [])
    (hfew : (pySplit ((splitCRLF requestBytes.decode).headD [])).length < 2) :
    get_url requestBytes.decode = none ∧
    handle_request env blocked_urls cache requestBytes =
      { sends := [], cache := cache, probeRequest := none, fetched := false,
        tunneled := false, closed := false, err := some .indexError } := by
  have hurl := (get_url_eq_none_iff requestBytes.decode).mpr hfew
  have hne' : requestBytes.decode.isEmpty = false := by
    cases hdec : requestBytes.decode with
    | nil => exact absurd hdec hne
    | cons _ _ => simp
  exact ⟨hurl, handle_request_parse_fail env blocked_urls cache requestBytes hne' hurl⟩

/-- Claim C4 witness: a malformed `POST` request line with a single token. -/
theorem parse_failure_aborts_handler_witness :
    get_url "POST\r\n\r\n".toList = none ∧
    handle_request env0 (fun _ => false) (fun _ => none) ⟨"POST\r\n\r\n".toList⟩ =
      { sends := [], cache := fun _ => none, probeRequest := none, fetched := false,
        tunneled := false, closed := false, err := some .indexError } :=
  parse_failure_aborts_handler env0 (fun _ => false) (fun _ => none)
    ⟨"POST\r\n\r\n".toList⟩ (by decide) (by decide)

/-- Claim C4 counterexample: on a malformed request line the handler
ends with the `IndexError` pending and `closed = false` — the handler
does not itself close the client connection (no response is sent). -/
theorem parse_failure_close_not_executed :
    (handle_request env0 (fun _ => false) (fun _ => none)
        ⟨"GET\r\nHost: h\r\n\r\n".toList⟩).err = some .indexError ∧
    (handle_request env0 (fun _ => false) (fun _ => none)
        ⟨"GET\r\nHost: h\r\n\r\n".toList⟩).closed = false ∧
    (handle_request env0 (fun _ => false) (fun _ => none)
        ⟨"GET\r\nHost: h\r\n\r\n".toList⟩).sends = [] := by
  decide

/-- Claim C5 (code bug): `get_status_code` returns the second token of
the first line whenever one exists, but on the empty byte string it
raises `IndexError` — `b''.split(b'\r\n')` is `[b'']`, which is truthy,
so the dead `return b''` arm never runs and `b''.split()[1]` is an index
out of range — instead of returning empty bytes as claimed. -/
theorem status_code_second_token_and_empty_raises :
    (∀ (response : PyBytes) (t1 t2 : Str) (ts : List Str),
        pySplit ((splitCRLF response.data).headD []) = t1 :: t2 :: ts →
        get_status_code response = some ⟨t2⟩) ∧
    get_status_code ⟨"HTTP/1.1 304 Not Modified\r\nDate: x\r\n\r\nbody".toList⟩
      = some b304 ∧
    get_status_code ⟨[]⟩ = none := by
  refine ⟨?_, by decide, by decide⟩
  intro response t1 t2 ts htok
  obtain ⟨a, l, hsp⟩ := exists_cons_splitCRLF response.data
  rw [hsp, List.headD_cons] at htok
  simp [get_status_code, hsp, htok]

/-- Claim C5 witness: the second token of a normal status line. -/
theorem status_code_second_token_and_empty_raises_witness :
    get_status_code ⟨"HTTP/1.1 200 OK\r\n\r\n".toList⟩ = some ⟨"200".toList⟩ :=
  status_code_second_token_and_empty_raises.1 _ "HTTP/1.1".toList "200".toList
    ["OK".toList] (by decide)

/-- Claim C6 (code bug): the `Last-Modified` scan is case-insensitive
and returns the stripped header value, but for every response with no
such header the fallback `time.strftime(b'%a, %d %b %Y %H:%M:%S GMT',
time.gmtime())` (`src/main.py:309`) raises `TypeError` in Python 3 —
the format argument must be `str`, not `bytes` — instead of returning
the current time as claimed. -/
theorem last_modified_value_and_missing_header_raises :
    (∀ response : PyBytes,
        (∀ l ∈ splitCRLF response.data,
          pyStartsWith (pyLower l) "last-modified:".toList = false) →
        get_last_modified response = none) ∧
    get_last_modified
        ⟨"HTTP/1.1 200 OK\r\nLaSt-MoDiFiEd:  Mon, 01 Jan 2024 00:00:00 GMT \r\n\r\n".toList⟩
      = some ⟨"Mon, 01 Jan 2024 00:00:00 GMT".toList⟩ :=
  ⟨fun _ h => get_last_modified_scan_none _ h, by decide⟩

/-- Claim C6 witness: a response with no `Last-Modified` header reaches
the raising fallback. -/
theorem last_modified_value_and_missing_header_raises_witness :
    get_last_modified ⟨"HTTP/1.1 200 OK\r\nServer: s\r\n\r\nbody".toList⟩ = none :=
  last_modified_value_and_missing_header_raises.1 _ (by decide)

/-- Claim C7: `get_host` scans the request lines case-insensitively for
one starting with `Host:`; on a match it returns the header value with
the trailing `:port` suffix stripped, and with no `Host` header in any
line it returns the literal `localhost` (it is total, so it never
fails). -/
theorem host_header_port_stripped_and_localhost_fallback :
    (∀ request : Str,
        (∀ l ∈ splitCRLF request,
          pyStartsWith (pyLower l) "host:".toList = false) →
        get_host request = "localhost".toList) ∧
    (∀ (request : Str) (pre post : List Str) (hd v h p : Str),
        splitCRLF request = pre ++ (hd ++ ':' :: v) :: post →
        (∀ l ∈ pre, pyStartsWith (pyLower l) "host:".toList = false) →
        pyLower hd = "host".toList →
        pyStrip v = h ++ ':' :: p →
        ':' ∉ h →
        pyStrip h = h →
        get_host request = h) := by
  constructor
  · intro request h
    exact get_host_scan_no_match _ h
  · intro request pre post hd v h p hsplit hpre hhd hv hcol hsh
    unfold get_host
    rw [hsplit, get_host_scan_append pre _ hpre]
    exact get_host_scan_match hd v h p post hhd hv hcol hsh

/-- Claim C7 witness: `Host: example.com:8080` yields `example.com`
(case-insensitive scan, port stripped), and a request with no `Host`
header yields `localhost`. -/
theorem host_header_port_stripped_and_localhost_fallback_witness :
    get_host "GET /x HTTP/1.1\r\nHost: example.com:8080\r\n\r\n".toList
      = "example.com".toList ∧
    get_host "GET /x HTTP/1.1\r\nAccept: */*\r\n\r\n".toList
      = "localhost".toList :=
  ⟨host_header_port_stripped_and_localhost_fallback.2
      "GET /x HTTP/1.1\r\nHost: example.com:8080\r\n\r\n".toList
      ["GET /x HTTP/1.1".toList] [[], []] "Host".toList
      " example.com:8080".toList "example.com".toList "8080".toList
      (by decide) (by decide) (by decide) (by decide) (by decide) (by decide),
    host_header_port_stripped_and_localhost_fallback.1
      "GET /x HTTP/1.1\r\nAccept: */*\r\n\r\n".toList (by decide)⟩

/-- Claim C8 witness: three non-empty reads are forwarded to the
opposite sides in order, the fourth (empty) read closes both sockets,
and the fifth pending read is never consumed. -/
theorem relay_https_first_empty_witness :
    relay_https [⟨.client, ⟨"abc".toList⟩⟩, ⟨.server, ⟨"d".toList⟩⟩,
        ⟨.client, ⟨"e".toList⟩⟩, ⟨.server, ⟨[]⟩⟩, ⟨.client, ⟨"zz".toList⟩⟩]
      = { toServer := [⟨"abc".toList⟩, ⟨"e".toList⟩], toClient := [⟨"d".toList⟩],
          closedBoth := true, reads := 4 } := by
  have h := relay_https_first_empty
    [⟨.client, ⟨"abc".toList⟩⟩, ⟨.server, ⟨"d".toList⟩⟩, ⟨.client, ⟨"e".toList⟩⟩]
    [⟨.client, ⟨"zz".toList⟩⟩] ⟨.server, ⟨[]⟩⟩ (by decide) (by decide)
  exact h.trans (by decide)

/-- Claim C9: an uncached, unblocked request containing `CONNECT` takes
the tunnel path, which never touches the cache: the cache mapping after
the handler run is the one from before, no fetch or probe happens, and
the only handler-level send is the 200 Connection Established line. -/
theorem connect_tunnel_preserves_cache (env : Env) (blocked_urls : Str → Bool)
    (cache : Str → Option CacheEntry) (requestBytes : PyBytes) (target : Str)
    (hurl : get_url requestBytes.decode = some target)
    (hb : blocked_urls target = false)
    (hc : cache target = none)
    (hconn : pyContains connectTok requestBytes.decode = true) :
    (handle_request env blocked_urls cache requestBytes).cache = cache ∧
    (handle_request env blocked_urls cache requestBytes).tunneled = true ∧
    (handle_request env blocked_urls cache requestBytes).fetched = false ∧
    (handle_request env blocked_urls cache requestBytes).probeRequest = none ∧
    (handle_request env blocked_urls cache requestBytes).sends = [connEstablished] := by
  rw [handle_request_tunnel env blocked_urls cache requestBytes target hurl hb hc hconn]
  exact ⟨rfl, rfl, rfl, rfl, rfl⟩

/-- Claim C9 witness: a CONNECT request on an empty cache leaves the
cache function unchanged and runs the tunnel. -/
theorem connect_tunnel_preserves_cache_witness :
    (handle_request env0 (fun _ => false) (fun _ => none)
        ⟨"CONNECT e.com:443 HTTP/1.1\r\nHost: e.com:443\r\n\r\n".toList⟩).cache
      = (fun _ => none) ∧
    (handle_request env0 (fun _ => false) (fun _ => none)
        ⟨"CONNECT e.com:443 HTTP/1.1\r\nHost: e.com:443\r\n\r\n".toList⟩).tunneled
      = true := by
  have h := connect_tunnel_preserves_cache env0 (fun _ => false) (fun _ => none)
    ⟨"CONNECT e.com:443 HTTP/1.1\r\nHost: e.com:443\r\n\r\n".toList⟩
    "e.com:443".toList (by decide) (by decide) (by decide) (by decide)
  exact ⟨h.1, h.2.1⟩

/-- Claim C10: CONNECT classification is by substring containment in the
whole request text, not by the method token: a request whose method
token is `GET` but which contains `CONNECT` in a header (i) when its
target is blocked, is sent the 200 Connection Established line before
the 403 body, and (ii) when unblocked and uncached, is routed to the
HTTPS tunnel path instead of a plain HTTP fetch. -/
theorem connect_classification_by_substring :
    (pySplit ((splitCRLF
        "GET /page HTTP/1.1\r\nUser-Agent: CONNECT-probe\r\n\r\n".toList).headD [])).headD []
      = "GET".toList ∧
    (handle_request env0 (fun t => t = "/page".toList) (fun _ => none)
        ⟨"GET /page HTTP/1.1\r\nUser-Agent: CONNECT-probe\r\n\r\n".toList⟩).sends
      = [connEstablished, blockedResponse] ∧
    (handle_request env0 (fun _ => false) (fun _ => none)
        ⟨"GET /page HTTP/1.1\r\nUser-Agent: CONNECT-probe\r\n\r\n".toList⟩).tunneled
      = true ∧
    (handle_request env0 (fun _ => false) (fun _ => none)
        ⟨"GET /page HTTP/1.1\r\nUser-Agent: CONNECT-probe\r\n\r\n".toList⟩).fetched
      = false := by
  decide
